import Mathlib

/-!
Shallow embedding of the `apps/core/models.py` models of the SCHOOL core app.

The file first embeds the data the claims are about (the
`SequenceGenerator` row, `AcademicSession`, the soft-delete mixin and
`Notification`), then proves the claimed properties.  Persisted state is
modelled as a list of rows; `save()` is modelled as an upsert keyed by the
primary key.  Machine strings are Lean `String`s; Python's `str(int)` and
`str.zfill` are modelled below for the nonnegative integers actually fed
to them.
-/

/-- Decimal digit characters, as produced by Python's `str` on 0..9.
Arguments 10 and above never arise for digits of a base-10 expansion. -/
def digitChar10 : Nat → Char
  | 0 => '0'
  | 1 => '1'
  | 2 => '2'
  | 3 => '3'
  | 4 => '4'
  | 5 => '5'
  | 6 => '6'
  | 7 => '7'
  | 8 => '8'
  | 9 => '9'
  | _ => '*'

/-- Big-endian decimal digits of `n`, accumulator style.  The first
argument is structural fuel; `n + 1` units always suffice since the digit
count of `n` is at most `n + 1`. -/
def toDigitsGo : Nat → Nat → List Char → List Char
  | 0, _, acc => acc
  | fuel + 1, n, acc =>
    if n < 10 then digitChar10 n :: acc
    else toDigitsGo fuel (n / 10) (digitChar10 (n % 10) :: acc)

/-- Model of Python's `str` applied to a nonnegative integer: its decimal
numeral, no sign, no leading zeros (and `"0"` for zero). -/
def strNat (n : Nat) : String :=
  String.mk (toDigitsGo (n + 1) n [])

/-- Model of Python's `str.zfill` for sign-free input: left-pad with `'0'`
up to `width`; a string already at least `width` long is returned as is
(the truncated subtraction makes the pad empty then). -/
def zfill (s : String) (width : Nat) : String :=
  String.mk (List.replicate (width - s.length) '0' ++ s.data)

/-- Numeric value of a digit character (inverse of `digitChar10` on 0..9);
used only to decode rendered numerals in proofs. -/
def charToDigit (c : Char) : Nat := c.toNat - 48

/-- One step of reading a decimal numeral left to right. -/
def evalStep (a : Nat) (c : Char) : Nat := 10 * a + charToDigit c

/-- Numeric value of a big-endian digit string (leading zeros ignored). -/
def evalDigits (l : List Char) : Nat := l.foldl evalStep 0

/-- Embedding of the `SequenceGenerator` model row (models.py 456-507).
`id` stands for the UUID primary key; `sequence_type` is the unique kind
string; `prefix_` renders the source's `prefix` field (the unmodified
name is unavailable here); `last_number` defaults to 0; `padding` is the
zero-fill width; `reset_frequency` is one of
"never"/"yearly"/"monthly"/"daily".  Inherited audit columns of
`CoreBaseModel` are not referenced by the sequence logic and are omitted. -/
structure SequenceGenerator where
  id : Nat
  sequence_type : String
  prefix_ : String
  suffix : String
  last_number : Nat
  padding : Nat
  reset_frequency : String
deriving DecidableEq

/-- Model of the ORM `save()` against a table: update the row with the
same primary key if present, insert otherwise. -/
def dbUpsert {α : Type} (key : α → Nat) (db : List α) (x : α) : List α :=
  if db.any (fun t => key t == key x) then
    db.map (fun t => if key t == key x then x else t)
  else db ++ [x]

/-- Embedding of `SequenceGenerator.get_next_number` (models.py 501-507):
increment `last_number`, call `save()`, then format
`f"{prefix}{number_str}{suffix}"` with `number_str = str(last_number).zfill(padding)`.
`saveOutcome` models the persistence step: `none` is a successful commit
(the row is written to `db`), `some e` is a `save()` that raises `e` —
the transactional store is then left unwritten (ORM atomicity, out of
scope of the source) while the exception propagates; the in-memory
instance (first component) has already been incremented either way,
exactly as in the source. -/
def get_next_number (ε : Type) (self : SequenceGenerator) (saveOutcome : Option ε)
    (db : List SequenceGenerator) :
    SequenceGenerator × List SequenceGenerator × Except ε String :=
  let self' := { self with last_number := self.last_number + 1 }
  match saveOutcome with
  | some e => (self', db, Except.error e)
  | none =>
    let number_str := zfill (strNat self'.last_number) self'.padding
    (self', dbUpsert SequenceGenerator.id db self',
      Except.ok (self'.prefix_ ++ number_str ++ self'.suffix))

/-- The formatted output of `get_next_number` for counter `c` at numeric
value `k` (same prefix/padding/suffix fields as `c`). -/
def fmtSeq (c : SequenceGenerator) (k : Nat) : String :=
  c.prefix_ ++ zfill (strNat k) c.padding ++ c.suffix

/-- A run of `n` successful `get_next_number` calls on the same counter,
threading the updated instance and store; returns the final instance, the
final store and the list of returned strings in call order. -/
def allocList (c : SequenceGenerator) (db : List SequenceGenerator) :
    Nat → SequenceGenerator × List SequenceGenerator × List String
  | 0 => (c, db, [])
  | n + 1 =>
    match get_next_number Empty c none db with
    | (c1, db1, Except.ok s) =>
      let r := allocList c1 db1 n
      (r.1, r.2.1, s :: r.2.2)
    | (_, _, Except.error e) => nomatch e

/-- Errors of the spec-level allocator entry point. -/
inductive AllocError where
  | notFound
  | conflict
deriving DecidableEq

/-- Modelled from the spec: the repository's `src/` has no `allocate(kind)`
entry point — only the `get_next_number` method on an already fetched row.
The lookup-by-kind step and its `NotFoundError` are taken from spec §4.1:
`kind` must name an existing counter row, otherwise the call fails with
`NotFoundError` (here `AllocError.notFound`); on success the fetched
counter's `get_next_number` runs with a successful save. -/
def allocate (db : List SequenceGenerator) (kind : String) :
    Except AllocError (SequenceGenerator × List SequenceGenerator × String) :=
  match db.find? (fun c => c.sequence_type == kind) with
  | none => Except.error AllocError.notFound
  | some c =>
    match get_next_number Empty c none db with
    | (c', db', Except.ok s) => Except.ok (c', db', s)
    | (_, _, Except.error e) => nomatch e

/-- Reading the `last_number` attribute of a counter (models.py 476) is a
plain column attribute access: it yields the value and leaves the
instance untouched (no descriptor or query logic in the source). -/
def last_number_read (self : SequenceGenerator) : Nat × SequenceGenerator :=
  (self.last_number, self)

-- Decoding lemmas: `evalDigits` is a left inverse of padded rendering.

lemma charToDigit_digitChar10 (d : Nat) (hd : d < 10) :
    charToDigit (digitChar10 d) = d := by
  interval_cases d <;> rfl

lemma toDigitsGo_eval :
    ∀ fuel n acc, n < fuel →
      List.foldl evalStep 0 (toDigitsGo fuel n acc) = List.foldl evalStep n acc := by
  intro fuel
  induction fuel with
  | zero => intro n acc h; exact absurd h (Nat.not_lt_zero n)
  | succ f ih =>
    intro n acc h
    by_cases hn : n < 10
    · simp only [toDigitsGo, if_pos hn, List.foldl_cons, evalStep,
        charToDigit_digitChar10 n hn, Nat.mul_zero, Nat.zero_add]
    · have hpos : 0 < n := by omega
      have hdiv : n / 10 < n := Nat.div_lt_self hpos (by omega)
      have hf : n / 10 < f := by omega
      simp only [toDigitsGo, if_neg hn]
      rw [ih (n / 10) (digitChar10 (n % 10) :: acc) hf]
      simp only [List.foldl_cons, evalStep,
        charToDigit_digitChar10 (n % 10) (Nat.mod_lt n (by omega))]
      rw [Nat.div_add_mod]

lemma evalDigits_strNat (n : Nat) : evalDigits (strNat n).data = n := by
  have h := toDigitsGo_eval (n + 1) n [] (Nat.lt_succ_self n)
  simpa [evalDigits, strNat] using h

lemma foldl_evalStep_replicate_zero :
    ∀ (k : Nat) (l : List Char),
      List.foldl evalStep 0 (List.replicate k '0' ++ l) = List.foldl evalStep 0 l := by
  intro k
  induction k with
  | zero => intro l; rfl
  | succ m ih =>
    intro l
    have h0 : evalStep 0 '0' = 0 := rfl
    simp only [List.replicate_succ, List.cons_append, List.foldl_cons, h0]
    exact ih l

lemma evalDigits_zfill_strNat (n w : Nat) :
    evalDigits (zfill (strNat n) w).data = n := by
  have h := foldl_evalStep_replicate_zero (w - (strNat n).length) (strNat n).data
  calc evalDigits (zfill (strNat n) w).data
      = List.foldl evalStep 0 (List.replicate (w - (strNat n).length) '0' ++ (strNat n).data) := rfl
    _ = List.foldl evalStep 0 (strNat n).data := h
    _ = n := evalDigits_strNat n

lemma zfill_strNat_inj {m n w : Nat}
    (h : (zfill (strNat m) w).data = (zfill (strNat n) w).data) : m = n := by
  have hm := evalDigits_zfill_strNat m w
  have hn := evalDigits_zfill_strNat n w
  rw [← hm, ← hn, h]

lemma fmtSeq_inj (c : SequenceGenerator) {m n : Nat}
    (h : fmtSeq c m = fmtSeq c n) : m = n := by
  have hd : (fmtSeq c m).data = (fmtSeq c n).data := by rw [h]
  simp only [fmtSeq, String.data_append] at hd
  have h1 := List.append_cancel_right hd
  have h2 := List.append_cancel_left h1
  exact zfill_strNat_inj h2

-- Characterization of a run of successful calls.

lemma allocList_succ (c : SequenceGenerator) (db : List SequenceGenerator) (n : Nat) :
    allocList c db (n + 1) =
      (let c1 : SequenceGenerator := { c with last_number := c.last_number + 1 }
       let r := allocList c1 (dbUpsert SequenceGenerator.id db c1) n
       (r.1, r.2.1, fmtSeq c (c.last_number + 1) :: r.2.2)) := rfl

lemma fmtSeq_update (c : SequenceGenerator) (m k : Nat) :
    fmtSeq { c with last_number := m } k = fmtSeq c k := rfl

lemma allocList_outputs :
    ∀ (n : Nat) (c : SequenceGenerator) (db : List SequenceGenerator),
      (allocList c db n).2.2 =
        (List.range n).map (fun i => fmtSeq c (c.last_number + i + 1)) := by
  intro n
  induction n with
  | zero => intro c db; rfl
  | succ m ih =>
    intro c db
    rw [allocList_succ]
    simp only [ih, fmtSeq_update, List.range_succ_eq_map, List.map_cons, List.map_map,
      Nat.add_zero]
    congr 1
    apply List.map_congr_left
    intro i _
    have hadd : c.last_number + 1 + i + 1 = c.last_number + (i + 1) + 1 := by omega
    simp only [Function.comp_apply, hadd, Nat.succ_eq_add_one]

-- Example counters used by concrete witnesses and counterexamples.

/-- A fresh student-id counter: prefix "STU-", no suffix, padding 4. -/
def stuFresh : SequenceGenerator :=
  { id := 1, sequence_type := "student_id", prefix_ := "STU-", suffix := "",
    last_number := 0, padding := 4, reset_frequency := "never" }

/-- The student-id counter after 5 prior allocations. -/
def stuAfter5 : SequenceGenerator :=
  { id := 1, sequence_type := "student_id", prefix_ := "STU-", suffix := "",
    last_number := 5, padding := 4, reset_frequency := "never" }

/-- A yearly-reset counter with padding 6 whose last allocation left
`last_number = 120`. -/
def padSix : SequenceGenerator :=
  { id := 2, sequence_type := "invoice", prefix_ := "", suffix := "",
    last_number := 120, padding := 6, reset_frequency := "yearly" }

/-- A bare counter with padding 6 and `last_number = 0`. -/
def padSixFresh : SequenceGenerator :=
  { id := 3, sequence_type := "receipt", prefix_ := "", suffix := "",
    last_number := 0, padding := 6, reset_frequency := "never" }

/-- Claim C1: on one counter, any run of successful `get_next_number`
calls produces outputs whose numeric components are the strictly
increasing values `last_number + i + 1`, and the returned formatted
strings are pairwise distinct. -/
theorem seq_get_next_number_unique (c : SequenceGenerator)
    (db : List SequenceGenerator) (n : Nat) :
    (allocList c db n).2.2 =
      (List.range n).map (fun i => fmtSeq c (c.last_number + i + 1)) ∧
    ((allocList c db n).2.2).Pairwise (fun a b => a ≠ b) ∧
    (∀ i j : Nat, i < j → c.last_number + i + 1 < c.last_number + j + 1) := by
  refine ⟨allocList_outputs n c db, ?_, fun i j hij => by omega⟩
  rw [allocList_outputs n c db]
  refine List.Pairwise.map _ ?_ (List.pairwise_lt_range n)
  intro a b hab heq
  have := fmtSeq_inj c heq
  omega

/-- Concrete instantiation of C1: three calls on the fresh student
counter give pairwise-distinct strings and increasing numbers. -/
theorem seq_get_next_number_unique_witness :
    ((allocList stuFresh [] 3).2.2).Pairwise (fun a b => a ≠ b) ∧
    stuFresh.last_number + 0 + 1 < stuFresh.last_number + 1 + 1 :=
  ⟨(seq_get_next_number_unique stuFresh [] 3).2.1,
   (seq_get_next_number_unique stuFresh [] 3).2.2 0 1 (by decide)⟩

/-- Claim C2: a successful call increments `last_number` by exactly 1,
persists the updated row, and returns
`prefix ++ zfill (str new_last_number) padding ++ suffix`; in particular
with `padding = 6` and `last_number = 0` the call returns "000001". -/
theorem seq_get_next_number_increment_format :
    (∀ (c : SequenceGenerator) (db : List SequenceGenerator),
      get_next_number Empty c none db =
        ({ c with last_number := c.last_number + 1 },
         dbUpsert SequenceGenerator.id db { c with last_number := c.last_number + 1 },
         Except.ok (c.prefix_ ++ zfill (strNat (c.last_number + 1)) c.padding ++ c.suffix))) ∧
    (get_next_number Empty padSixFresh none []).2.2 = Except.ok "000001" := by
  exact ⟨fun c db => rfl, rfl⟩

/-- Claim C3 (failing input): the source's `get_next_number` never
consults `reset_frequency`; on a yearly counter whose last allocation
left `last_number = 120`, the next call returns "000121" with
`last_number = 121` instead of resetting to 0 and returning "000001". -/
theorem seq_get_next_number_ignores_reset :
    padSix.reset_frequency = "yearly" ∧
    padSix.last_number = 120 ∧
    (get_next_number Empty padSix none []).2.2 = Except.ok "000121" ∧
    (get_next_number Empty padSix none []).1.last_number = 121 ∧
    ("000121" : String) ≠ "000001" := by
  exact ⟨rfl, rfl, rfl, rfl, by decide⟩

/-- Claim C4 (counterexample): with `prefix = "STU-"`, `suffix = ""` and
`padding = 4`, the 6th allocation from a fresh counter returns
"STU-0006" — not the claimed "STU-000006" (which would need padding 6). -/
theorem seq_padding4_counterexample :
    ((allocList stuFresh [] 6).2.2).getLast? = some "STU-0006" ∧
    ("STU-0006" : String) ≠ "STU-000006" := by
  exact ⟨rfl, by decide⟩

/-- Claim C4 (amended): after 5 prior allocations the 6th call on the
`prefix = "STU-"`, `padding = 4` counter returns "STU-0006". -/
theorem seq_padding4_amended :
    ((allocList stuFresh [] 6).2.2).getLast? = some "STU-0006" ∧
    (get_next_number Empty stuAfter5 none []).2.2 = Except.ok "STU-0006" := by
  exact ⟨rfl, rfl⟩

/-- Claim C5: when the `save()` step raises, the exception value is
propagated unchanged and the persisted store is not written — the visible
(persisted) `last_number` keeps its pre-call value. -/
theorem seq_get_next_number_save_failure (ε : Type) (e : ε)
    (c : SequenceGenerator) (db : List SequenceGenerator) :
    (get_next_number ε c (some e) db).2.1 = db ∧
    (get_next_number ε c (some e) db).2.2 = Except.error e := by
  exact ⟨rfl, rfl⟩

/-- Claim C7: inspecting `last_number` returns its value and leaves the
counter instance (every field) unchanged. -/
theorem seq_last_number_read_pure (c : SequenceGenerator) :
    (last_number_read c).1 = c.last_number ∧ (last_number_read c).2 = c := by
  exact ⟨rfl, rfl⟩

/-- Claim C6: the allocator entry point fails with `NotFoundError` exactly
when no counter row carries the requested kind, and succeeds when one
does. -/
theorem allocate_kind_lookup (db : List SequenceGenerator) (kind : String) :
    ((∀ c ∈ db, c.sequence_type ≠ kind) →
      allocate db kind = Except.error AllocError.notFound) ∧
    ((∃ c ∈ db, c.sequence_type = kind) →
      ∃ r, allocate db kind = Except.ok r) := by
  constructor
  · intro hnone
    have hfind : db.find? (fun c => c.sequence_type == kind) = none := by
      rw [List.find?_eq_none]
      intro c hc
      simpa using hnone c hc
    simp [allocate, hfind]
  · intro hsome
    have hfind : (db.find? (fun c => c.sequence_type == kind)).isSome := by
      rw [List.find?_isSome]
      obtain ⟨c, hc, hk⟩ := hsome
      exact ⟨c, hc, by simpa using hk⟩
    obtain ⟨c, hc⟩ := Option.isSome_iff_exists.mp hfind
    refine ⟨((get_next_number Empty c none db).1,
      (get_next_number Empty c none db).2.1, fmtSeq c (c.last_number + 1)), ?_⟩
    simp [allocate, hc]
    rfl

/-- Concrete instantiation of C6: the lookup fails on an empty table and
succeeds when the student counter is configured. -/
theorem allocate_kind_lookup_witness :
    allocate [] "student_id" = Except.error AllocError.notFound ∧
    ∃ r, allocate [stuFresh] "student_id" = Except.ok r :=
  ⟨(allocate_kind_lookup [] "student_id").1 (fun c hc => absurd hc (List.not_mem_nil c)),
   (allocate_kind_lookup [stuFresh] "student_id").2
     ⟨stuFresh, List.mem_singleton.mpr rfl, rfl⟩⟩

-- Generic facts about the modelled ORM save (upsert).

lemma dbUpsert_mem {α : Type} (key : α → Nat) (db : List α) (x t : α)
    (h : t ∈ dbUpsert key db x) : t = x ∨ t ∈ db := by
  unfold dbUpsert at h
  by_cases hany : db.any (fun t => key t == key x)
  · rw [if_pos hany] at h
    obtain ⟨u, hu, hut⟩ := List.mem_map.mp h
    by_cases hk : key u == key x
    · left; rw [if_pos hk] at hut; exact hut.symm
    · right; rw [if_neg hk] at hut; exact hut ▸ hu
  · rw [if_neg hany] at h
    rcases List.mem_append.mp h with hdb | hx
    · exact Or.inr hdb
    · exact Or.inl (List.mem_singleton.mp hx)

lemma dbUpsert_self_mem {α : Type} (key : α → Nat) (db : List α) (x : α) :
    x ∈ dbUpsert key db x := by
  unfold dbUpsert
  by_cases hany : db.any (fun t => key t == key x)
  · rw [if_pos hany]
    obtain ⟨u, hu, huk⟩ := List.any_eq_true.mp hany
    exact List.mem_map.mpr ⟨u, hu, by rw [if_pos huk]⟩
  · rw [if_neg hany]
    exact List.mem_append.mpr (Or.inr (List.mem_singleton.mpr rfl))

/-- Embedding of the `AcademicSession` model row (models.py 353-428).
Dates are day numbers; `id` stands for the UUID primary key. -/
structure AcademicSession where
  id : Nat
  name : String
  number_of_semesters : Nat
  term_number : Option Nat
  start_date : Nat
  end_date : Nat
  is_current : Bool
deriving DecidableEq

/-- Embedding of `AcademicSession.save` (models.py 410-417): when the
instance is marked current, first run
`AcademicSession.objects.filter(is_current=True).update(is_current=False)`
(clear the flag on every stored row that has it), then `super().save()`
(upsert the instance by primary key). -/
def AcademicSession.save (db : List AcademicSession) (self : AcademicSession) :
    List AcademicSession :=
  let db1 :=
    if self.is_current then
      db.map (fun t => if t.is_current then { t with is_current := false } else t)
    else db
  dbUpsert AcademicSession.id db1 self

/-- At most one stored session (as a row value) carries the current flag. -/
def atMostOneCurrent (db : List AcademicSession) : Prop :=
  ∀ t1 ∈ db, ∀ t2 ∈ db, t1.is_current = true → t2.is_current = true → t1 = t2

lemma cleared_not_current (db : List AcademicSession) (t : AcademicSession)
    (h : t ∈ db.map (fun t => if t.is_current then { t with is_current := false } else t)) :
    t.is_current = false := by
  obtain ⟨u, _, hut⟩ := List.mem_map.mp h
  by_cases hu : u.is_current
  · rw [if_pos hu] at hut; rw [← hut]
  · rw [if_neg hu] at hut; rw [← hut]; exact Bool.not_eq_true u.is_current ▸ hu

lemma save_current_all_eq (db : List AcademicSession) (s : AcademicSession)
    (hs : s.is_current = true) :
    ∀ t ∈ AcademicSession.save db s, t.is_current = true → t = s := by
  intro t ht htc
  unfold AcademicSession.save at ht
  rw [if_pos hs] at ht
  rcases dbUpsert_mem AcademicSession.id _ s t ht with heq | hmem
  · exact heq
  · exact absurd htc (by simp [cleared_not_current db t hmem])

/-- Claim C8: saving a session with `is_current = true` leaves it the only
current row, and a save of any session preserves the invariant that at
most one stored session is current. -/
theorem academic_session_save_single_current (db : List AcademicSession)
    (s : AcademicSession) :
    (s.is_current = true →
      ∀ t ∈ AcademicSession.save db s, t.is_current = true → t = s) ∧
    (atMostOneCurrent db → atMostOneCurrent (AcademicSession.save db s)) := by
  refine ⟨save_current_all_eq db s, ?_⟩
  intro hdb t1 h1 t2 h2 hc1 hc2
  by_cases hs : s.is_current = true
  · rw [save_current_all_eq db s hs t1 h1 hc1, save_current_all_eq db s hs t2 h2 hc2]
  · unfold AcademicSession.save at h1 h2
    rw [if_neg hs] at h1 h2
    rcases dbUpsert_mem AcademicSession.id db s t1 h1 with he1 | hm1
    · exact absurd (he1 ▸ hc1) hs
    · rcases dbUpsert_mem AcademicSession.id db s t2 h2 with he2 | hm2
      · exact absurd (he2 ▸ hc2) hs
      · exact hdb t1 hm1 t2 hm2 hc1 hc2

/-- The 2024/2025 session row, marked current. -/
def sessionEx : AcademicSession :=
  { id := 1, name := "2024/2025", number_of_semesters := 2, term_number := some 1,
    start_date := 0, end_date := 365, is_current := true }

/-- Concrete instantiation of C8: saving the current 2024/2025 session
into an empty table makes it the only current row and keeps the
invariant. -/
theorem academic_session_save_single_current_witness :
    (∀ t ∈ AcademicSession.save [] sessionEx, t.is_current = true → t = sessionEx) ∧
    atMostOneCurrent (AcademicSession.save [] sessionEx) :=
  ⟨(academic_session_save_single_current [] sessionEx).1 rfl,
   (academic_session_save_single_current [] sessionEx).2
     (fun t1 h1 => absurd h1 (List.not_mem_nil t1))⟩

/-- Embedding of the `SoftDeleteModel` mixin columns (models.py 67-97):
`is_deleted` defaults to false, `deleted_at` to null.  `α` carries the
remaining columns of the concrete model; `id` is the primary key used by
the modelled `save()`. -/
structure SoftDeleteRecord (α : Type) where
  id : Nat
  is_deleted : Bool
  deleted_at : Option Nat
  rest : α
deriving DecidableEq

/-- Embedding of `SoftDeleteModel.delete` (models.py 77-83): set
`is_deleted = True` and `deleted_at = timezone.now()`, then `save()` —
the row is written back, not removed. -/
def SoftDeleteRecord.delete {α : Type} (self : SoftDeleteRecord α) (now : Nat)
    (db : List (SoftDeleteRecord α)) : SoftDeleteRecord α × List (SoftDeleteRecord α) :=
  let self' := { self with is_deleted := true, deleted_at := some now }
  (self', dbUpsert SoftDeleteRecord.id db self')

/-- Embedding of `SoftDeleteModel.restore` (models.py 91-97): set
`is_deleted = False` and `deleted_at = None`, then `save()`. -/
def SoftDeleteRecord.restore {α : Type} (self : SoftDeleteRecord α)
    (db : List (SoftDeleteRecord α)) : SoftDeleteRecord α × List (SoftDeleteRecord α) :=
  let self' := { self with is_deleted := false, deleted_at := none }
  (self', dbUpsert SoftDeleteRecord.id db self')

/-- Embedding of `SoftDeleteModel.hard_delete` (models.py 85-89): the
actual row removal, for contrast with the soft delete above. -/
def SoftDeleteRecord.hard_delete {α : Type} (self : SoftDeleteRecord α)
    (db : List (SoftDeleteRecord α)) : List (SoftDeleteRecord α) :=
  db.filter (fun t => t.id != self.id)

/-- Claim C9: `delete` sets `is_deleted` and stamps `deleted_at`;
`restore` puts both deletion fields back to the never-deleted defaults
while every other column and the key survive the round trip, and after
either call the row is still present in the store. -/
theorem soft_delete_restore_roundtrip (α : Type) (x : SoftDeleteRecord α)
    (now : Nat) (db : List (SoftDeleteRecord α)) :
    ((x.delete now db).1.is_deleted = true ∧
     (x.delete now db).1.deleted_at = some now) ∧
    (((x.delete now db).1.restore (x.delete now db).2).1.is_deleted = false ∧
     ((x.delete now db).1.restore (x.delete now db).2).1.deleted_at = none) ∧
    ((x.delete now db).1.restore (x.delete now db).2).1.rest = x.rest ∧
    ((x.delete now db).1.restore (x.delete now db).2).1.id = x.id ∧
    (x.delete now db).1 ∈ (x.delete now db).2 ∧
    ((x.delete now db).1.restore (x.delete now db).2).1 ∈
      ((x.delete now db).1.restore (x.delete now db).2).2 := by
  refine ⟨⟨rfl, rfl⟩, ⟨rfl, rfl⟩, rfl, rfl, ?_, ?_⟩
  · exact dbUpsert_self_mem SoftDeleteRecord.id db _
  · exact dbUpsert_self_mem SoftDeleteRecord.id (x.delete now db).2 _

/-- Embedding of the `Notification` model row (models.py 231-291): the
user is a foreign key (modelled by its key), timestamps are instants
modelled as numbers, `is_read` defaults to false and `read_at` to null. -/
structure Notification where
  id : Nat
  user : Nat
  title : String
  message : String
  notification_type : String
  priority : String
  is_read : Bool
  read_at : Option Nat
  action_url : String
  related_model : String
  related_object_id : String
  expires_at : Option Nat
deriving DecidableEq

/-- Embedding of `Notification.mark_as_read` (models.py 287-291): set
`is_read = True` and `read_at = timezone.now()`, then `save()`. -/
def Notification.mark_as_read (self : Notification) (now : Nat)
    (db : List Notification) : Notification × List Notification :=
  let self' := { self with is_read := true, read_at := some now }
  (self', dbUpsert Notification.id db self')

/-- Claim C10: `mark_as_read` sets `is_read`, stamps `read_at` with the
current time and persists the row, while every other notification column
is left unchanged. -/
theorem notification_mark_as_read_frame (n : Notification) (now : Nat)
    (db : List Notification) :
    (n.mark_as_read now db).1.is_read = true ∧
    (n.mark_as_read now db).1.read_at = some now ∧
    (n.mark_as_read now db).1.user = n.user ∧
    (n.mark_as_read now db).1.title = n.title ∧
    (n.mark_as_read now db).1.message = n.message ∧
    (n.mark_as_read now db).1.notification_type = n.notification_type ∧
    (n.mark_as_read now db).1.priority = n.priority ∧
    (n.mark_as_read now db).1.action_url = n.action_url ∧
    (n.mark_as_read now db).1.related_model = n.related_model ∧
    (n.mark_as_read now db).1.related_object_id = n.related_object_id ∧
    (n.mark_as_read now db).1.expires_at = n.expires_at ∧
    (n.mark_as_read now db).1.id = n.id ∧
    (n.mark_as_read now db).1 ∈ (n.mark_as_read now db).2 := by
  refine ⟨rfl, rfl, rfl, rfl, rfl, rfl, rfl, rfl, rfl, rfl, rfl, rfl, ?_⟩
  exact dbUpsert_self_mem Notification.id db _
